/-
Verification of the finance dashboard core (position valuation, target
evaluation, live-tick merging, aggregate stats, SSE reconnect policy and
P&L chart zero-crossing fills) against its JavaScript source.

Shallow embedding conventions:
* JavaScript numbers are modelled as `ℚ`; a field that may be `undefined`
  (or that can become `NaN` by arithmetic on `undefined`) is `Option ℚ`,
  with `none` standing for undefined/NaN (both are falsy and both
  propagate through `+`/`*` as non-numbers on the paths modelled here).
* The JavaScript expression `a || b` on numbers is `jsOr` (`0`,
  `undefined` and `NaN` are falsy); `obj.f || b` on option values is
  `jsOrO`; truthiness of an optional number is `jsTruthy`.
-/
import Mathlib

namespace FinanceAi

/-- JavaScript `a || d` where `a` is a possibly-undefined number and `d`
a number: `undefined`, `NaN` and `0` are falsy. -/
def jsOr : Option ℚ → ℚ → ℚ
  | none, d => d
  | some x, d => if x = 0 then d else x

/-- JavaScript `a || b` where both sides are possibly-undefined numbers. -/
def jsOrO : Option ℚ → Option ℚ → Option ℚ
  | none, b => b
  | some x, b => if x = 0 then b else some x

/-- JavaScript truthiness of a possibly-undefined number. -/
def jsTruthy : Option ℚ → Bool
  | none => false
  | some x => decide (x ≠ 0)

/-- Addition where an undefined/NaN operand poisons the result
(JavaScript `undefined + x = NaN`, `NaN + x = NaN`). -/
def optAdd : Option ℚ → Option ℚ → Option ℚ
  | some a, some b => some (a + b)
  | _, _ => none

/-- Multiplication with undefined/NaN propagation. -/
def optMul : Option ℚ → Option ℚ → Option ℚ
  | some a, some b => some (a * b)
  | _, _ => none

/-- Per-position P&L block optionally carried inside a live tick
(`live_data.pnl` in the source). -/
structure PnlInfo where
  pnl_net : Option ℚ := none
  pnl_percent : Option ℚ := none
  pnl_gross : Option ℚ := none
  commission_native : Option ℚ := none
  current_value : Option ℚ := none
  invested : Option ℚ := none
deriving DecidableEq

/-- One inbound live tick for a ticker (`live_data` in the source). -/
structure LiveData where
  price : Option ℚ := none
  change : Option ℚ := none
  change_percent : Option ℚ := none
  pnl : Option PnlInfo := none
deriving DecidableEq

/-- A portfolio position, with the fields the valuation, target and
merge code reads.  Optional numeric fields are `none` when absent. -/
structure Position where
  ticker : String := ""
  status : String := ""
  entry_price : Option ℚ := none
  quantity : Option ℚ := none
  buy_commission : Option ℚ := none
  sell_commission : Option ℚ := none
  current_price : Option ℚ := none
  exit_price : Option ℚ := none
  stop_loss : Option ℚ := none
  take_profit_1 : Option ℚ := none
  take_profit_2 : Option ℚ := none
  pnl_value : Option ℚ := none
  pnl_percent : Option ℚ := none
  pnl_gross : Option ℚ := none
  current_value : Option ℚ := none
  invested : Option ℚ := none
  live_data : Option LiveData := none
deriving DecidableEq

/-- `ticker.endsWith(suffix)`, computed structurally on the character
lists of the strings. -/
def strEndsWith (s suff : String) : Bool :=
  suff.data.isSuffixOf s.data

/-- `get marketCurrency` of `position-card.js`: market currency from the
ticker suffix. -/
def marketCurrency (p : Position) : String :=
  let ticker := p.ticker
  if strEndsWith ticker ".SW" || strEndsWith ticker ".VX" then "CHF"
  else if strEndsWith ticker ".PA" || strEndsWith ticker ".DE" || strEndsWith ticker ".AS" then "EUR"
  else if strEndsWith ticker ".L" then "GBP"
  else "USD"

/-- `PositionCard.CHF_RATES`: approximate CHF→currency conversion table. -/
def CHF_RATES (c : String) : Option ℚ :=
  if c = "USD" then some (113/100)
  else if c = "EUR" then some (105/100)
  else if c = "GBP" then some (89/100)
  else if c = "CHF" then some 1
  else none

/-- Result record of the `pnlData` getter. -/
structure PnlData where
  value : ℚ
  percent : ℚ
  gross : ℚ
  fees : ℚ
  isProfit : Bool
  currentPrice : ℚ
  invested : ℚ
  currentValue : ℚ
deriving DecidableEq

/-- `get pnlData` of `position-card.js`. -/
def pnlData (p : Position) : PnlData :=
  let liveData := p.live_data.getD {}
  let currentPrice :=
    jsOr liveData.price (jsOr p.current_price (jsOr p.exit_price (jsOr p.entry_price 0)))
  let quantity := jsOr p.quantity 1
  let entryPrice := jsOr p.entry_price 0
  let buyComm := jsOr p.buy_commission 0
  let sellComm := jsOr p.sell_commission 0
  let totalFeesChf := buyComm + sellComm
  let totalFees :=
    match liveData.pnl with
    | some q =>
        match q.commission_native with
        | some c => c
        | none => totalFeesChf * jsOr (CHF_RATES (marketCurrency p)) 1
    | none => totalFeesChf * jsOr (CHF_RATES (marketCurrency p)) 1
  let res : Option ℚ × Option ℚ × Option ℚ :=
    match liveData.pnl with
    | some q => (q.pnl_net, q.pnl_percent, jsOrO q.pnl_gross (optAdd q.pnl_net (some totalFees)))
    | none =>
        match p.pnl_value with
        | some pv =>
            (some pv, some (jsOr p.pnl_percent 0), jsOrO p.pnl_gross (some (pv + totalFees)))
        | none =>
            let exitPrice := jsOr p.exit_price currentPrice
            let invested := entryPrice * quantity
            let currentValue := exitPrice * quantity
            let pnlGross := currentValue - invested
            let pnlValue := pnlGross - totalFees
            let pnlPercent := if 0 < invested then pnlValue / invested * 100 else 0
            (some pnlValue, some pnlPercent, some pnlGross)
  { value := jsOr res.1 0
    percent := jsOr res.2.1 0
    gross := jsOr res.2.2 0
    fees := totalFees
    isProfit := decide (0 ≤ jsOr res.1 0)
    currentPrice := currentPrice
    invested := entryPrice * quantity
    currentValue := currentPrice * quantity }

/-- Tick-supplied native commission, when present
(`liveData.pnl.commission_native`). -/
def commissionNativeOf (p : Position) : Option ℚ :=
  (p.live_data.getD {}).pnl.bind fun q => q.commission_native

/-- `get alertType` of `position-card.js`: target evaluation with
priority stop-loss, then take-profit 2, then take-profit 1. -/
def alertType (p : Position) : Option String :=
  let currentPrice := (pnlData p).currentPrice
  if p.status ≠ "open" ∨ currentPrice = 0 then none
  else if jsTruthy p.stop_loss = true ∧ currentPrice ≤ p.stop_loss.getD 0 then some "sl"
  else if jsTruthy p.take_profit_2 = true ∧ p.take_profit_2.getD 0 ≤ currentPrice then some "tp2"
  else if jsTruthy p.take_profit_1 = true ∧ p.take_profit_1.getD 0 ≤ currentPrice then some "tp1"
  else none

/-- The `[sl, tp2]` range computed inside `get markerPosition`
(defaults: `sl = entry*0.95`, `tp1 = entry*1.05`, `tp2 = tp1*1.05`). -/
def markerBounds (p : Position) : ℚ × ℚ :=
  let currentPrice := (pnlData p).currentPrice
  let entry := jsOr p.entry_price currentPrice
  let sl := jsOr p.stop_loss (entry * (95/100))
  let tp1 := jsOr p.take_profit_1 (entry * (105/100))
  let tp2 := jsOr p.take_profit_2 (tp1 * (105/100))
  (sl, tp2)

/-- `get markerPosition` of `position-card.js`. -/
def markerPosition (p : Position) : ℚ :=
  let currentPrice := (pnlData p).currentPrice
  let sl := (markerBounds p).1
  let tp2 := (markerBounds p).2
  let totalRange := tp2 - sl
  if totalRange ≤ 0 then 50
  else max 2 (min 98 ((currentPrice - sl) / totalRange * 100))

/-- The `[sl, tp2]` range computed inside `get entryPosition` and
`get tp1Position` (defaults: `sl = entry*0.95`, `tp2 = entry*1.1`). -/
def refBounds (p : Position) : ℚ × ℚ :=
  let entry := jsOr p.entry_price (pnlData p).currentPrice
  let sl := jsOr p.stop_loss (entry * (95/100))
  let tp2 := jsOr p.take_profit_2 (entry * (110/100))
  (sl, tp2)

/-- `get entryPosition` of `position-card.js`. -/
def entryPosition (p : Position) : ℚ :=
  let entry := jsOr p.entry_price (pnlData p).currentPrice
  let sl := (refBounds p).1
  let tp2 := (refBounds p).2
  let totalRange := tp2 - sl
  if totalRange ≤ 0 then 50 else (entry - sl) / totalRange * 100

/-- `get tp1Position` of `position-card.js`. -/
def tp1Position (p : Position) : ℚ :=
  let entry := jsOr p.entry_price (pnlData p).currentPrice
  let sl := (refBounds p).1
  let tp2 := (refBounds p).2
  let tp1 := jsOr p.take_profit_1 (entry * (105/100))
  let totalRange := tp2 - sl
  if totalRange ≤ 0 then 75 else (tp1 - sl) / totalRange * 100

/-! Live-tick merging and aggregate stats (`portfolio-page.js`). -/

/-- The per-position update applied when a live tick matches an open
position: live fields are replaced wholesale from the tick
(`{...p, current_price: liveData.price, live_data: liveData, ...}`). -/
def applyTick (p : Position) (t : LiveData) : Position :=
  { p with
    current_price := t.price
    live_data := some t
    pnl_value := t.pnl.bind fun q => q.pnl_net
    pnl_percent := t.pnl.bind fun q => q.pnl_percent
    pnl_gross := t.pnl.bind fun q => q.pnl_gross
    current_value := t.pnl.bind fun q => q.current_value
    invested := t.pnl.bind fun q => q.invested }

/-- A batch of inbound ticks, keyed by ticker (`result.prices`). -/
def TickBatch : Type := String → Option LiveData

/-- The body of the `this.positions.map(p => ...)` merge: an open
position with a matching tick is updated, every other position is
returned unchanged. -/
def mergeOne (prices : TickBatch) (p : Position) : Position :=
  if p.status = "open" then
    match prices p.ticker with
    | some t => applyTick p t
    | none => p
  else p

/-- The whole-list merge performed on each inbound price frame. -/
def mergeBatch (prices : TickBatch) (positions : List Position) : List Position :=
  positions.map (mergeOne prices)

/-- Repeated merging of a chronological sequence of tick batches into a
single position. -/
def mergeSeq : List TickBatch → Position → Position
  | [], p => p
  | b :: bs, p => mergeSeq bs (mergeOne b p)

/-- The most recent tick for `tk` in a chronological batch sequence. -/
def lastTickFor : List TickBatch → String → Option LiveData
  | [], _ => none
  | b :: bs, tk =>
      match lastTickFor bs tk with
      | some t => some t
      | none => b tk

/-- The dashboard aggregate stats object (the fields
`_updateStatsFromPositions` reads or writes). -/
structure Stats where
  value : Option ℚ := some 0
  invested : Option ℚ := some 0
  openPositions : ℕ := 0
  pnlOpen : Option ℚ := some 0
  pnlRealized : Option ℚ := none
  pnlGlobal : Option ℚ := some 0
deriving DecidableEq

/-- `p.invested || (p.entry_price * (p.quantity || 1))` of the stats fold. -/
def statsInvested (p : Position) : Option ℚ :=
  jsOrO p.invested (optMul p.entry_price (some (jsOr p.quantity 1)))

/-- `p.current_value || invested` of the stats fold. -/
def statsValue (p : Position) : Option ℚ :=
  jsOrO p.current_value (statsInvested p)

/-- `p.pnl_value || 0` of the stats fold. -/
def statsPnl (p : Position) : ℚ :=
  jsOr p.pnl_value 0

/-- One iteration of the `openPositions.forEach` accumulation:
`totalInvested += invested; totalValue += value; pnlOpen += pnl`. -/
def statsFoldStep (acc : Option ℚ × Option ℚ × Option ℚ) (p : Position) :
    Option ℚ × Option ℚ × Option ℚ :=
  (optAdd acc.1 (statsInvested p),
   optAdd acc.2.1 (statsValue p),
   optAdd acc.2.2 (some (statsPnl p)))

/-- `_updateStatsFromPositions` of `portfolio-page.js`: folds invested,
current value and net P&L over the open positions and adds the carried
realized P&L to form the global P&L. -/
def updateStatsFromPositions (positions : List Position) (stats : Stats) : Stats :=
  let opens := positions.filter fun p => p.status == "open"
  let sums := opens.foldl statsFoldStep (some 0, some 0, some 0)
  { stats with
    value := sums.2.1
    invested := sums.1
    openPositions := opens.length
    pnlOpen := sums.2.2
    pnlGlobal := optAdd sums.2.2 (some (jsOr stats.pnlRealized 0)) }

/-! The SSE client state machine (`sse-client.js`). -/

/-- State of one `SSEClient`: configuration (`reconnectDelay`,
`maxRetries`, with `none` for `Infinity`) and mutable fields.
`esAlive` models `eventSource !== null`; `reconnectTimer` holds the
delay of a pending reconnect timer. -/
structure SSEClient where
  reconnectDelay : ℕ := 5000
  maxRetries : Option ℕ := none
  retries : ℕ := 0
  esAlive : Bool := false
  reconnectTimer : Option ℕ := none
  isManualClose : Bool := false
deriving DecidableEq

/-- `this.retries < this.maxRetries` with `maxRetries = Infinity` as `none`. -/
def ltMaxRetries (r : ℕ) : Option ℕ → Bool
  | none => true
  | some m => decide (r < m)

/-- Events a live client reacts to: a transport error, an inbound frame
whose JSON body decodes (`frameGood`) or fails to decode (`frameBad`),
the `onopen` callback, the pending reconnect timer firing, and a manual
`close()` call. -/
inductive SSEEvent
  | transportError
  | frameGood
  | frameBad
  | openEvt
  | timerFire
  | closeCall
deriving DecidableEq

/-- `_createEventSource`: tears down any existing transport and opens a
new one. -/
def createEventSource (s : SSEClient) : SSEClient :=
  { s with esAlive := true }

/-- One step of the SSE client.  `onmessage` sets `retries = 0` before
`JSON.parse`, so both decodable and undecodable frames reset the
counter; `onerror` returns early when manually closed, otherwise
increments `retries` and schedules a reconnect after
`min(reconnectDelay * retries, 30000)`; `close()` marks the manual
close, cancels the pending timer and drops the transport. -/
def sseStep (s : SSEClient) : SSEEvent → SSEClient
  | .frameGood => { s with retries := 0 }
  | .frameBad => { s with retries := 0 }
  | .openEvt => { s with retries := 0 }
  | .transportError =>
      if s.isManualClose then s
      else if ltMaxRetries s.retries s.maxRetries then
        { s with
          retries := s.retries + 1
          reconnectTimer := some (min (s.reconnectDelay * (s.retries + 1)) 30000) }
      else s
  | .timerFire =>
      match s.reconnectTimer with
      | some _ => { (createEventSource s) with reconnectTimer := none }
      | none => s
  | .closeCall =>
      { s with isManualClose := true, reconnectTimer := none, esAlive := false }

/-- Running the client over a sequence of events. -/
def sseRun (s : SSEClient) (evs : List SSEEvent) : SSEClient :=
  evs.foldl sseStep s

/-! The P&L chart zero-crossing fills (`portfolio-chart`, `_drawPnlChart`). -/

/-- One chart sample point (`{x, y, value}`). -/
structure ChartPoint where
  x : ℚ
  y : ℚ
  value : ℚ
deriving DecidableEq

/-- `Math.min(...data, 0)`: the chart minimum always includes 0. -/
def pnlChartMin (data : List ℚ) : ℚ :=
  data.foldr min 0

/-- `Math.max(...data, 0)`: the chart maximum always includes 0. -/
def pnlChartMax (data : List ℚ) : ℚ :=
  data.foldr max 0

/-- `const range = max - min || 1`. -/
def pnlChartRange (data : List ℚ) : ℚ :=
  let r := pnlChartMax data - pnlChartMin data
  if r = 0 then 1 else r

/-- The point list built by `data.map((val, i) => ...)` with
`pl = padding.left`, `cw = chartWidth`, `pt = padding.top`,
`ch = chartHeight`; `n` is `data.length` and `i` the running index. -/
def pnlPointsAux (pl cw pt ch minV range : ℚ) (n : ℕ) : ℕ → List ℚ → List ChartPoint
  | _, [] => []
  | i, v :: rest =>
      { x := pl + ((i : ℚ) / ((n : ℚ) - 1)) * cw
        y := pt + ch - ((v - minV) / range) * ch
        value := v } :: pnlPointsAux pl cw pt ch minV range n (i + 1) rest

/-- The full point list of `_drawPnlChart`. -/
def pnlPoints (pl cw pt ch : ℚ) (data : List ℚ) : List ChartPoint :=
  pnlPointsAux pl cw pt ch (pnlChartMin data) (pnlChartRange data) data.length 0 data

/-- The branch condition of the positive fill loop (`p.value >= 0`):
an exact-zero sample belongs to the positive side. -/
def posSide (p : ChartPoint) : Bool :=
  decide (0 ≤ p.value)

/-- The branch condition of the negative fill loop (`p.value < 0`). -/
def negSide (p : ChartPoint) : Bool :=
  decide (p.value < 0)

/-- The positive fill loop, reduced to the horizontal span of each
region it fills: a region opens at the x of the first non-negative
sample, and closes either at the interpolated zero crossing
`prev.x + (p.x - prev.x) * (prev.value / (prev.value - p.value))` when
a negative sample follows, or at the last sample's x at the end of the
data.  The first argument is the open region's start (the loop's
`started` flag), the second the previous point. -/
def posFillSpans : Option ℚ → Option ChartPoint → List ChartPoint → List (ℚ × ℚ)
  | some sx, some pr, [] => [(sx, pr.x)]
  | some sx, none, [] => [(sx, sx)]
  | none, _, [] => []
  | started, prev, p :: rest =>
      if posSide p then
        posFillSpans (some (started.getD p.x)) (some p) rest
      else
        match started, prev with
        | some sx, some pr =>
            (sx, pr.x + (p.x - pr.x) * (pr.value / (pr.value - p.value))) ::
              posFillSpans none (some p) rest
        | some sx, none => (sx, sx) :: posFillSpans none (some p) rest
        | none, _ => posFillSpans none (some p) rest

/-- The negative fill loop, reduced to horizontal spans; it opens a
region at the x of the first negative sample and closes it at the
interpolated crossing
`prev.x + (p.x - prev.x) * (-prev.value / (p.value - prev.value))` when
a non-negative sample follows, or at the last sample's x. -/
def negFillSpans : Option ℚ → Option ChartPoint → List ChartPoint → List (ℚ × ℚ)
  | some sx, some pr, [] => [(sx, pr.x)]
  | some sx, none, [] => [(sx, sx)]
  | none, _, [] => []
  | started, prev, p :: rest =>
      if negSide p then
        negFillSpans (some (started.getD p.x)) (some p) rest
      else
        match started, prev with
        | some sx, some pr =>
            (sx, pr.x + (p.x - pr.x) * (-pr.value / (p.value - pr.value))) ::
              negFillSpans none (some p) rest
        | some sx, none => (sx, sx) :: negFillSpans none (some p) rest
        | none, _ => negFillSpans none (some p) rest

/-- Positive fill spans of the whole chart. -/
def pnlPosSpans (pts : List ChartPoint) : List (ℚ × ℚ) :=
  posFillSpans none none pts

/-- Negative fill spans of the whole chart. -/
def pnlNegSpans (pts : List ChartPoint) : List (ℚ × ℚ) :=
  negFillSpans none none pts

/-! Concrete scenarios used by the theorems below. -/

/-- Spec scenario position (entry 100, quantity 10, buy commission 5,
sell commission 0, live tick 110) on a Swiss ticker, whose market
currency is CHF. -/
def scenarioChf : Position :=
  { ticker := "NESN.SW", status := "open", entry_price := some 100, quantity := some 10,
    buy_commission := some 5, sell_commission := some 0,
    live_data := some { price := some 110 } }

/-- The same scenario on a plain US ticker, whose market currency is
USD (conversion rate 1.13). -/
def scenarioUsd : Position :=
  { ticker := "AAPL", status := "open", entry_price := some 100, quantity := some 10,
    buy_commission := some 5, sell_commission := some 0,
    live_data := some { price := some 110 } }

/-- Target scenario: stop loss 90, take profits 110 and 120, price 125. -/
def scenarioTargets : Position :=
  { ticker := "AAPL", status := "open", entry_price := some 100, quantity := some 10,
    stop_loss := some 90, take_profit_1 := some 110, take_profit_2 := some 120,
    live_data := some { price := some 125 } }

/-- An open position with a configured stop loss but no resolvable
price (no live, current, exit or entry price). -/
def scenarioNoPrice : Position :=
  { ticker := "AAPL", status := "open", stop_loss := some 90 }

/-- A position whose take-profit 2 is absent, so the marker range and
the reference-line range default it differently (marker:
`tp1 * 1.05 = 210`; entry/tp1 reference lines: `entry * 1.1 = 110`). -/
def scenarioRanges : Position :=
  { ticker := "AAPL", status := "open", entry_price := some 100, stop_loss := some 90,
    take_profit_1 := some 200, live_data := some { price := some 100 } }

/-- An open position whose live price 85 is at or below its stop loss 90. -/
def scenarioStopHit : Position :=
  { ticker := "AAPL", status := "open", entry_price := some 100, quantity := some 10,
    stop_loss := some 90, take_profit_1 := some 110, take_profit_2 := some 120,
    live_data := some { price := some 85 } }

/-- An SSE client that has already failed three times. -/
def scenarioClient : SSEClient :=
  { reconnectDelay := 5000, maxRetries := none, retries := 3, esAlive := true,
    reconnectTimer := none, isManualClose := false }

/-- The P&L series of the spec zero-crossing scenario. -/
def chartData4 : List ℚ := [-5, -2, 3, 6]

/-- Its chart points with `padding.left = 5`, `chartWidth = 300`,
`padding.top = 10`, `chartHeight = 100` (sample x spacing 100). -/
def chartPts4 : List ChartPoint := pnlPoints 5 300 10 100 chartData4

/-! Helper lemmas. -/

/-- The resolved current price is the fallback chain
`live price, current_price, exit_price, entry_price, 0`. -/
lemma pnlData_currentPrice (p : Position) :
    (pnlData p).currentPrice =
      jsOr (p.live_data.getD {}).price
        (jsOr p.current_price (jsOr p.exit_price (jsOr p.entry_price 0))) := rfl

/-- The reported invested amount is `entry_price * quantity` with the
falsy defaults applied. -/
lemma pnlData_invested (p : Position) :
    (pnlData p).invested = jsOr p.entry_price 0 * jsOr p.quantity 1 := rfl

/-- Without a tick-supplied native commission, the fee total is the
ledger commissions converted by the CHF rate table. -/
lemma pnlData_fees_fallback (p : Position) (h : commissionNativeOf p = none) :
    (pnlData p).fees =
      (jsOr p.buy_commission 0 + jsOr p.sell_commission 0) *
        jsOr (CHF_RATES (marketCurrency p)) 1 := by
  cases hp : (p.live_data.getD {}).pnl with
  | none => simp [pnlData, hp]
  | some q =>
      have hcn : q.commission_native = none := by
        simpa [commissionNativeOf, hp] using h
      simp [pnlData, hp, hcn]

/-- C1: the spec scenario values hold on a CHF-market ticker, where the
conversion rate is 1; in the no-native-commission fallback the fee
total is the ledger commissions multiplied by the CHF conversion rate
of the market currency (so it is taken as-is exactly when that rate is
1, as for CHF). -/
theorem pnl_valuation_scenario :
    ((pnlData scenarioChf).invested = 1000 ∧ (pnlData scenarioChf).currentValue = 1100 ∧
     (pnlData scenarioChf).gross = 100 ∧ (pnlData scenarioChf).fees = 5 ∧
     (pnlData scenarioChf).value = 95 ∧ (pnlData scenarioChf).percent = 19/2) ∧
    (∀ p : Position, commissionNativeOf p = none →
      (pnlData p).fees =
        (jsOr p.buy_commission 0 + jsOr p.sell_commission 0) *
          jsOr (CHF_RATES (marketCurrency p)) 1) ∧
    CHF_RATES "CHF" = some 1 := by
  refine ⟨?_, pnlData_fees_fallback, rfl⟩
  have h : CHF_RATES (marketCurrency scenarioChf) = some 1 := rfl
  have hb : scenarioChf.buy_commission = some 5 := rfl
  have hs : scenarioChf.sell_commission = some 0 := rfl
  have hl : scenarioChf.live_data = some { price := some 110 } := rfl
  have he : scenarioChf.entry_price = some 100 := rfl
  have hq : scenarioChf.quantity = some 10 := rfl
  have hx : scenarioChf.exit_price = none := rfl
  have hc : scenarioChf.current_price = none := rfl
  have hv : scenarioChf.pnl_value = none := rfl
  refine ⟨?_, ?_, ?_, ?_, ?_, ?_⟩ <;>
    simp [pnlData, jsOr, jsOrO, h, hb, hs, hl, he, hq, hx, hc, hv] <;> norm_num

/-- Witness for the fee-fallback part of C1 at the CHF scenario. -/
theorem pnl_valuation_scenario_witness :
    (pnlData scenarioChf).fees =
      (jsOr scenarioChf.buy_commission 0 + jsOr scenarioChf.sell_commission 0) *
        jsOr (CHF_RATES (marketCurrency scenarioChf)) 1 :=
  pnl_valuation_scenario.2.1 scenarioChf rfl

/-- C1 counterexample: on a USD-market ticker the same position yields
`fees = 5.65` and `pnl_net = 94.35`, so the fee total is not
`buy_commission + sell_commission` taken as-is and the net P&L is
not 95: the fallback multiplies by a currency-conversion rate. -/
theorem pnl_fee_conversion_cex :
    (pnlData scenarioUsd).fees = 113/20 ∧ (pnlData scenarioUsd).value = 1887/20 ∧
    (pnlData scenarioUsd).fees ≠
      jsOr scenarioUsd.buy_commission 0 + jsOr scenarioUsd.sell_commission 0 ∧
    (pnlData scenarioUsd).value ≠ 95 := by
  have h : CHF_RATES (marketCurrency scenarioUsd) = some (113/100) := rfl
  have hb : scenarioUsd.buy_commission = some 5 := rfl
  have hs : scenarioUsd.sell_commission = some 0 := rfl
  have hl : scenarioUsd.live_data = some { price := some 110 } := rfl
  have he : scenarioUsd.entry_price = some 100 := rfl
  have hq : scenarioUsd.quantity = some 10 := rfl
  have hx : scenarioUsd.exit_price = none := rfl
  have hc : scenarioUsd.current_price = none := rfl
  have hv : scenarioUsd.pnl_value = none := rfl
  refine ⟨?_, ?_, ?_, ?_⟩ <;>
    simp [pnlData, jsOr, jsOrO, h, hb, hs, hl, he, hq, hx, hc, hv] <;> norm_num

/-- C9: on the computed branch (no tick P&L block, no stored
`pnl_value`), a position with invested = 0 reports `pnl_percent = 0`
exactly: the division is guarded. -/
theorem pnl_percent_zero_invested :
    ∀ p : Position, (p.live_data.getD {}).pnl = none → p.pnl_value = none →
      (pnlData p).invested = 0 → (pnlData p).percent = 0 := by
  intro p hp hv hinv
  rw [pnlData_invested] at hinv
  simp only [pnlData, hp, hv, hinv]
  simp [jsOr]

/-- Witness for C9 at a position with no entry price. -/
theorem pnl_percent_zero_invested_witness :
    (pnlData scenarioNoPrice).percent = 0 :=
  pnl_percent_zero_invested scenarioNoPrice rfl rfl
    (by norm_num [pnlData_invested, scenarioNoPrice, jsOr])

/-- C10: whenever the resolved current price is 0 (in particular when
no live, current, exit or entry price is available), target evaluation
returns no alert, even with a configured stop loss. -/
theorem no_alert_at_zero_price :
    (∀ p : Position, (pnlData p).currentPrice = 0 → alertType p = none) ∧
    alertType scenarioNoPrice = none := by
  have base : ∀ p : Position, (pnlData p).currentPrice = 0 → alertType p = none := by
    intro p h
    simp [alertType, h]
  exact ⟨base, base scenarioNoPrice (by norm_num [pnlData_currentPrice, scenarioNoPrice, jsOr])⟩

/-- Witness for C10 at the stop-loss-configured, price-less position. -/
theorem no_alert_at_zero_price_witness :
    alertType scenarioNoPrice = none :=
  no_alert_at_zero_price.1 scenarioNoPrice
    (by norm_num [pnlData_currentPrice, scenarioNoPrice, jsOr])

/-- C3: target evaluation checks stop-loss first, then take-profit 2,
then take-profit 1; the spec scenario (90/110/120, price 125) yields
the take-profit-2 state, and a non-open position yields no target. -/
theorem target_priority_eval :
    alertType scenarioTargets = some "tp2" ∧
    (∀ p : Position, p.status ≠ "open" → alertType p = none) ∧
    (∀ p : Position, p.status = "open" → (pnlData p).currentPrice ≠ 0 →
      jsTruthy p.stop_loss = true → (pnlData p).currentPrice ≤ p.stop_loss.getD 0 →
      alertType p = some "sl") ∧
    (∀ p : Position, p.status = "open" → (pnlData p).currentPrice ≠ 0 →
      ¬(jsTruthy p.stop_loss = true ∧ (pnlData p).currentPrice ≤ p.stop_loss.getD 0) →
      jsTruthy p.take_profit_2 = true → p.take_profit_2.getD 0 ≤ (pnlData p).currentPrice →
      alertType p = some "tp2") := by
  refine ⟨?_, ?_, ?_, ?_⟩
  · have hcp : (pnlData scenarioTargets).currentPrice = 125 := by
      norm_num [pnlData_currentPrice, scenarioTargets, jsOr]
    have hsl : scenarioTargets.stop_loss = some 90 := rfl
    have h2 : scenarioTargets.take_profit_2 = some 120 := rfl
    have hst : scenarioTargets.status = "open" := rfl
    simp only [alertType, hcp, hsl, h2, hst, jsTruthy]
    norm_num
  · intro p h
    simp [alertType, h]
  · intro p h1 h2 h3 h4
    simp only [alertType]
    rw [if_neg (by simp [h1, h2]), if_pos ⟨h3, h4⟩]
  · intro p h1 h2 h3 h4 h5
    simp only [alertType]
    rw [if_neg (by simp [h1, h2]), if_neg h3, if_pos ⟨h4, h5⟩]

/-- Witness for C3: a live price at or below the stop loss reports the
stop-loss state. -/
theorem target_priority_eval_witness :
    alertType scenarioStopHit = some "sl" :=
  target_priority_eval.2.2.1 scenarioStopHit rfl
    (by norm_num [pnlData_currentPrice, scenarioStopHit, jsOr])
    (by norm_num [scenarioStopHit, jsTruthy])
    (by norm_num [pnlData_currentPrice, scenarioStopHit, jsOr])

/-- C5 counterexample: with take-profit 2 absent (entry 100, stop loss
90, take-profit 1 = 200), the marker range defaults its top to
`tp1 * 1.05 = 210` while the entry/tp1 reference range defaults it to
`entry * 1.1 = 110`: entryPosition returns 50, not the 25/3 that
mapping the entry onto the marker range would give. -/
theorem ref_range_differs_cex :
    markerBounds scenarioRanges = (90, 210) ∧
    refBounds scenarioRanges = (90, 110) ∧
    markerBounds scenarioRanges ≠ refBounds scenarioRanges ∧
    entryPosition scenarioRanges = 50 ∧
    (jsOr scenarioRanges.entry_price (pnlData scenarioRanges).currentPrice -
        (markerBounds scenarioRanges).1) /
      ((markerBounds scenarioRanges).2 - (markerBounds scenarioRanges).1) * 100 = 25/3 ∧
    entryPosition scenarioRanges ≠ 25/3 := by
  have hcp : (pnlData scenarioRanges).currentPrice = 100 := by
    norm_num [pnlData_currentPrice, scenarioRanges, jsOr]
  have hm : markerBounds scenarioRanges = (90, 210) := by
    norm_num [markerBounds, scenarioRanges, pnlData_currentPrice, jsOr]
  have hr : refBounds scenarioRanges = (90, 110) := by
    norm_num [refBounds, scenarioRanges, pnlData_currentPrice, jsOr]
  have he : entryPosition scenarioRanges = 50 := by
    simp only [entryPosition, hr, hcp]
    norm_num [scenarioRanges, jsOr]
  refine ⟨hm, hr, by rw [hm, hr]; norm_num, he, ?_, by rw [he]; norm_num⟩
  rw [hm, hcp]
  norm_num [scenarioRanges, jsOr]

/-- C5 amended: markerPosition maps the current price linearly onto its
`[sl, tp2]` range clamped to `[2, 98]` and returns 50 on a zero or
negative width; when stop loss and take-profit 2 are both set and
nonzero the marker and reference-line ranges agree (both are the
configured `[stop_loss, take_profit_2]`); the reference positions map
entry and take-profit 1 linearly onto the reference range. -/
theorem marker_mapping :
    (∀ p : Position, (markerBounds p).2 - (markerBounds p).1 ≤ 0 → markerPosition p = 50) ∧
    (∀ p : Position, 0 < (markerBounds p).2 - (markerBounds p).1 →
      markerPosition p =
        max 2 (min 98 (((pnlData p).currentPrice - (markerBounds p).1) /
          ((markerBounds p).2 - (markerBounds p).1) * 100)) ∧
      2 ≤ markerPosition p ∧ markerPosition p ≤ 98) ∧
    (∀ p : Position, jsTruthy p.stop_loss = true → jsTruthy p.take_profit_2 = true →
      markerBounds p = (p.stop_loss.getD 0, p.take_profit_2.getD 0) ∧
      refBounds p = markerBounds p) ∧
    (∀ p : Position, 0 < (refBounds p).2 - (refBounds p).1 →
      entryPosition p =
        (jsOr p.entry_price (pnlData p).currentPrice - (refBounds p).1) /
          ((refBounds p).2 - (refBounds p).1) * 100 ∧
      tp1Position p =
        (jsOr p.take_profit_1 (jsOr p.entry_price (pnlData p).currentPrice * (105/100)) -
            (refBounds p).1) /
          ((refBounds p).2 - (refBounds p).1) * 100) := by
  refine ⟨?_, ?_, ?_, ?_⟩
  · intro p h
    simp only [markerPosition]
    rw [if_pos h]
  · intro p h
    have hne : ¬((markerBounds p).2 - (markerBounds p).1 ≤ 0) := not_le.mpr h
    simp only [markerPosition]
    rw [if_neg hne]
    exact ⟨rfl, le_max_left _ _, max_le (by norm_num) (min_le_left _ _)⟩
  · intro p hsl htp
    cases h1 : p.stop_loss with
    | none => rw [h1] at hsl; simp [jsTruthy] at hsl
    | some a =>
        cases h2 : p.take_profit_2 with
        | none => rw [h2] at htp; simp [jsTruthy] at htp
        | some b =>
            rw [h1] at hsl; rw [h2] at htp
            have ha : a ≠ 0 := by simpa [jsTruthy] using hsl
            have hb : b ≠ 0 := by simpa [jsTruthy] using htp
            constructor <;> simp [markerBounds, refBounds, h1, h2, jsOr, ha, hb]
  · intro p h
    have hne : ¬((refBounds p).2 - (refBounds p).1 ≤ 0) := not_le.mpr h
    constructor
    · simp only [entryPosition]
      rw [if_neg hne]
    · simp only [tp1Position]
      rw [if_neg hne]

/-- Witness for C5 at the take-profit scenario, where stop loss and
take-profit 2 are both configured. -/
theorem marker_mapping_witness :
    markerBounds scenarioTargets =
      (scenarioTargets.stop_loss.getD 0, scenarioTargets.take_profit_2.getD 0) ∧
    refBounds scenarioTargets = markerBounds scenarioTargets :=
  marker_mapping.2.2.1 scenarioTargets
    (by norm_num [jsTruthy, scenarioTargets])
    (by norm_num [jsTruthy, scenarioTargets])

/-- C2 counterexample: at retry count 3, an inbound frame whose JSON
body fails to decode still resets the counter to 0 (the reset happens
before parsing), so the next error schedules the base delay 5000 ms
where continuing the sequence would have scheduled 20000 ms. -/
theorem sse_reset_on_bad_frame_cex :
    scenarioClient.retries = 3 ∧
    (sseStep scenarioClient .frameBad).retries = 0 ∧
    (sseStep (sseStep scenarioClient .frameBad) .transportError).reconnectTimer = some 5000 ∧
    (sseStep scenarioClient .transportError).reconnectTimer = some 20000 := by
  refine ⟨rfl, rfl, ?_, ?_⟩ <;> simp [sseStep, scenarioClient, ltMaxRetries, createEventSource]

/-- C2 amended: each transport error (below the retry cap, not
manually closed) schedules `min(reconnectDelay * retries, 30000)` with
the just-incremented retry count; successive error delays are
monotonically non-decreasing; and the retry counter is reset to zero on
EVERY inbound frame — decoded or not — and on connection open. -/
theorem sse_backoff_policy :
    (∀ s : SSEClient, s.isManualClose = false → ltMaxRetries s.retries s.maxRetries = true →
      (sseStep s .transportError).retries = s.retries + 1 ∧
      (sseStep s .transportError).reconnectTimer =
        some (min (s.reconnectDelay * (s.retries + 1)) 30000)) ∧
    (∀ s : SSEClient, ∀ d1 d2 : ℕ,
      (sseStep s .transportError).reconnectTimer = some d1 →
      (sseStep (sseStep s .transportError) .transportError).reconnectTimer = some d2 →
      d1 ≤ d2) ∧
    (∀ s : SSEClient,
      (sseStep s .frameGood).retries = 0 ∧ (sseStep s .frameBad).retries = 0 ∧
      (sseStep s .openEvt).retries = 0) := by
  refine ⟨?_, ?_, fun s => ⟨rfl, rfl, rfl⟩⟩
  · intro s h1 h2
    simp [sseStep, h1, h2]
  · intro s d1 d2 h1 h2
    by_cases hm : s.isManualClose = true
    · simp only [sseStep, hm, if_true] at h1 h2
      rw [h1] at h2
      exact le_of_eq (Option.some_injective _ h2)
    · have hm' : s.isManualClose = false := by simpa using hm
      by_cases hr : ltMaxRetries s.retries s.maxRetries = true
      · have e1 : (sseStep s .transportError).reconnectTimer =
            some (min (s.reconnectDelay * (s.retries + 1)) 30000) := by
          simp [sseStep, hm', hr]
        by_cases hr2 : ltMaxRetries (s.retries + 1) s.maxRetries = true
        · have e2 : (sseStep (sseStep s .transportError) .transportError).reconnectTimer =
              some (min (s.reconnectDelay * (s.retries + 2)) 30000) := by
            simp [sseStep, hm', hr, hr2]
          rw [e1] at h1
          rw [e2] at h2
          have hd1 := Option.some_injective _ h1
          have hd2 := Option.some_injective _ h2
          rw [← hd1, ← hd2]
          exact min_le_min (Nat.mul_le_mul_left _ (by omega)) le_rfl
        · have hr2' : ltMaxRetries (s.retries + 1) s.maxRetries = false :=
            Bool.eq_false_iff.mpr hr2
          have e2 : sseStep (sseStep s .transportError) .transportError =
              sseStep s .transportError := by
            simp [sseStep, hm', hr, hr2']
          rw [e2, h1] at h2
          exact le_of_eq (Option.some_injective _ h2)
      · have e1 : sseStep s .transportError = s := by
          simp [sseStep, hm', hr]
        rw [e1] at h1 h2
        rw [e1, h1] at h2
        exact le_of_eq (Option.some_injective _ h2)

/-- Witness for C2 at the three-failure client: the next error
schedules `min(5000 * 4, 30000) = 20000`. -/
theorem sse_backoff_policy_witness :
    (sseStep scenarioClient .transportError).retries = scenarioClient.retries + 1 ∧
    (sseStep scenarioClient .transportError).reconnectTimer =
      some (min (scenarioClient.reconnectDelay * (scenarioClient.retries + 1)) 30000) :=
  sse_backoff_policy.1 scenarioClient rfl rfl

/-- A client that has been manually closed stays torn down: the flag is
set, no timer is pending and no transport is alive, whatever events
arrive. -/
lemma sse_closed_stable (s : SSEClient) (h1 : s.isManualClose = true)
    (h2 : s.reconnectTimer = none) (h3 : s.esAlive = false) :
    ∀ evs : List SSEEvent,
      (sseRun s evs).isManualClose = true ∧ (sseRun s evs).reconnectTimer = none ∧
      (sseRun s evs).esAlive = false := by
  intro evs
  induction evs generalizing s with
  | nil => exact ⟨h1, h2, h3⟩
  | cons e evs ih =>
      cases e with
      | transportError => exact ih _ (by simp [sseRun, sseStep, h1]) (by simp [sseStep, h1, h2]) (by simp [sseStep, h1, h3])
      | frameGood => exact ih _ h1 h2 h3
      | frameBad => exact ih _ h1 h2 h3
      | openEvt => exact ih _ h1 h2 h3
      | timerFire => exact ih _ (by simp [sseStep, h2, h1]) (by simp [sseStep, h2]) (by simp [sseStep, h2, h3])
      | closeCall => exact ih _ rfl rfl rfl

/-- C8: `close()` is idempotent (a second call changes nothing), it
cancels any pending reconnect timer, and after a close no sequence of
transport errors, frames, opens or timer firings ever revives the
transport or schedules a reconnect. -/
theorem sse_close_idempotent_no_reconnect :
    (∀ s : SSEClient, sseStep (sseStep s .closeCall) .closeCall = sseStep s .closeCall) ∧
    (∀ s : SSEClient, (sseStep s .closeCall).reconnectTimer = none) ∧
    (∀ s : SSEClient, ∀ evs : List SSEEvent,
      (sseRun (sseStep s .closeCall) evs).esAlive = false ∧
      (sseRun (sseStep s .closeCall) evs).reconnectTimer = none) := by
  refine ⟨fun s => rfl, fun s => rfl, fun s evs => ?_⟩
  have h := sse_closed_stable (sseStep s .closeCall) rfl rfl rfl evs
  exact ⟨h.2.2, h.2.1⟩

lemma optAdd_right_comm (a x y : Option ℚ) :
    optAdd (optAdd a x) y = optAdd (optAdd a y) x := by
  cases a <;> cases x <;> cases y <;> simp [optAdd, add_right_comm]

/-- Shifting extra summands out of the three-component stats fold. -/
lemma statsFold_shift (l : List Position) (a b c x y z : Option ℚ) :
    l.foldl statsFoldStep (optAdd a x, optAdd b y, optAdd c z) =
      (optAdd (l.foldl statsFoldStep (a, b, c)).1 x,
       optAdd (l.foldl statsFoldStep (a, b, c)).2.1 y,
       optAdd (l.foldl statsFoldStep (a, b, c)).2.2 z) := by
  induction l generalizing a b c with
  | nil => rfl
  | cons p l ih =>
      simp only [List.foldl_cons, statsFoldStep]
      rw [optAdd_right_comm a x (statsInvested p), optAdd_right_comm b y (statsValue p),
        optAdd_right_comm c z (some (statsPnl p))]
      exact ih _ _ _

/-- C6: the aggregate recompute folds over exactly the open positions
(a non-open position contributes nothing; an open one adds its
invested, current value and net P&L figures), and the global P&L is
the open-position P&L sum plus the carried realized P&L, which the
recompute never modifies. -/
theorem aggregate_stats_fold :
    (∀ (positions : List Position) (stats : Stats) (p : Position), p.status ≠ "open" →
      updateStatsFromPositions (p :: positions) stats = updateStatsFromPositions positions stats) ∧
    (∀ (positions : List Position) (stats : Stats) (p : Position), p.status = "open" →
      (updateStatsFromPositions (p :: positions) stats).invested =
        optAdd ((updateStatsFromPositions positions stats).invested) (statsInvested p) ∧
      (updateStatsFromPositions (p :: positions) stats).value =
        optAdd ((updateStatsFromPositions positions stats).value) (statsValue p) ∧
      (updateStatsFromPositions (p :: positions) stats).pnlOpen =
        optAdd ((updateStatsFromPositions positions stats).pnlOpen) (some (statsPnl p))) ∧
    (∀ (positions : List Position) (stats : Stats),
      (updateStatsFromPositions positions stats).pnlGlobal =
        optAdd ((updateStatsFromPositions positions stats).pnlOpen)
          (some (jsOr stats.pnlRealized 0)) ∧
      (updateStatsFromPositions positions stats).pnlRealized = stats.pnlRealized) := by
  refine ⟨?_, ?_, fun positions stats => ⟨rfl, rfl⟩⟩
  · intro positions stats p h
    have hb : (p.status == "open") = false := by simpa using h
    simp [updateStatsFromPositions, List.filter_cons, hb]
  · intro positions stats p h
    have hb : (p.status == "open") = true := by simpa using h
    simp only [updateStatsFromPositions, List.filter_cons, hb, if_true, List.foldl_cons]
    have hstep : statsFoldStep (some 0, some 0, some 0) p =
        (optAdd (some 0) (statsInvested p), optAdd (some 0) (statsValue p),
         optAdd (some 0) (some (statsPnl p))) := rfl
    rw [hstep, statsFold_shift]
    exact ⟨rfl, rfl, rfl⟩

/-- Witness for C6: a closed position contributes nothing to the
aggregate recompute. -/
theorem aggregate_stats_fold_witness :
    updateStatsFromPositions [{ status := "closed" }] {} =
      updateStatsFromPositions [] {} :=
  aggregate_stats_fold.1 [] {} { status := "closed" } (by decide)

/-- `mergeOne` never changes a position's status. -/
lemma mergeOne_status (b : TickBatch) (p : Position) : (mergeOne b p).status = p.status := by
  cases hb : b p.ticker <;> by_cases h : p.status = "open" <;>
    simp [mergeOne, h, hb, applyTick]

/-- `mergeOne` never changes a position's ticker. -/
lemma mergeOne_ticker (b : TickBatch) (p : Position) : (mergeOne b p).ticker = p.ticker := by
  cases hb : b p.ticker <;> by_cases h : p.status = "open" <;>
    simp [mergeOne, h, hb, applyTick]

/-- A tick sequence containing no tick for a position's ticker leaves
the position unchanged. -/
lemma mergeSeq_no_tick (bs : List TickBatch) :
    ∀ p : Position, lastTickFor bs p.ticker = none → mergeSeq bs p = p := by
  induction bs with
  | nil => intro p _; rfl
  | cons b bs ih =>
      intro p h
      have hbs : lastTickFor bs p.ticker = none := by
        cases hl : lastTickFor bs p.ticker with
        | none => rfl
        | some t => simp [lastTickFor, hl] at h
      have hb : b p.ticker = none := by simpa [lastTickFor, hbs] using h
      have hm : mergeOne b p = p := by
        by_cases hst : p.status = "open" <;> simp [mergeOne, hst, hb]
      show mergeSeq bs (mergeOne b p) = p
      rw [hm]
      exact ih p hbs

/-- After a chronological sequence of tick batches, an open position
equals the original with the most recent matching tick applied. -/
lemma mergeSeq_last_tick (bs : List TickBatch) :
    ∀ (p : Position) (t : LiveData), p.status = "open" →
      lastTickFor bs p.ticker = some t → mergeSeq bs p = applyTick p t := by
  induction bs with
  | nil => intro p t _ h; simp [lastTickFor] at h
  | cons b bs ih =>
      intro p t hst h
      cases hl : lastTickFor bs p.ticker with
      | some t0 =>
          have ht : t0 = t := by simpa [lastTickFor, hl] using h
          show mergeSeq bs (mergeOne b p) = applyTick p t
          have hstm : (mergeOne b p).status = "open" := by rw [mergeOne_status]; exact hst
          have htkm : (mergeOne b p).ticker = p.ticker := mergeOne_ticker b p
          have hrec := ih (mergeOne b p) t0 hstm (by rw [htkm]; exact hl)
          rw [hrec, ht]
          cases hbt : b p.ticker with
          | some tb =>
              rw [show mergeOne b p = applyTick p tb from by simp [mergeOne, hst, hbt]]
              rfl
          | none =>
              rw [show mergeOne b p = p from by simp [mergeOne, hst, hbt]]
      | none =>
          have hb : b p.ticker = some t := by simpa [lastTickFor, hl] using h
          show mergeSeq bs (mergeOne b p) = applyTick p t
          rw [show mergeOne b p = applyTick p t from by simp [mergeOne, hst, hb]]
          exact mergeSeq_no_tick bs (applyTick p t) hl

/-- C7: the tick merge leaves non-open positions and positions without
a matching tick unchanged; an open position with a matching tick has
its live fields replaced wholesale by that tick (static fields
untouched); applying a newer tick fully overwrites an older one; and
over any batch sequence an open position reflects exactly the most
recent tick for its ticker. -/
theorem tick_merge_invariant :
    (∀ (prices : TickBatch) (p : Position), p.status ≠ "open" → mergeOne prices p = p) ∧
    (∀ (prices : TickBatch) (p : Position), prices p.ticker = none → mergeOne prices p = p) ∧
    (∀ (prices : TickBatch) (p : Position) (t : LiveData), p.status = "open" →
      prices p.ticker = some t → mergeOne prices p = applyTick p t) ∧
    (∀ (p : Position) (t1 t2 : LiveData), applyTick (applyTick p t1) t2 = applyTick p t2) ∧
    (∀ (p : Position) (t : LiveData),
      (applyTick p t).ticker = p.ticker ∧ (applyTick p t).status = p.status ∧
      (applyTick p t).entry_price = p.entry_price ∧ (applyTick p t).quantity = p.quantity ∧
      (applyTick p t).buy_commission = p.buy_commission ∧
      (applyTick p t).sell_commission = p.sell_commission ∧
      (applyTick p t).stop_loss = p.stop_loss ∧
      (applyTick p t).take_profit_1 = p.take_profit_1 ∧
      (applyTick p t).take_profit_2 = p.take_profit_2 ∧
      (applyTick p t).exit_price = p.exit_price ∧
      (applyTick p t).live_data = some t) ∧
    (∀ (prices : TickBatch) (positions : List Position),
      mergeBatch prices positions = positions.map (mergeOne prices)) ∧
    (∀ (bs : List TickBatch) (p : Position) (t : LiveData), p.status = "open" →
      lastTickFor bs p.ticker = some t → mergeSeq bs p = applyTick p t) ∧
    (∀ (bs : List TickBatch) (p : Position),
      lastTickFor bs p.ticker = none → mergeSeq bs p = p) := by
  refine ⟨?_, ?_, ?_, fun p t1 t2 => rfl,
    fun p t => ⟨rfl, rfl, rfl, rfl, rfl, rfl, rfl, rfl, rfl, rfl, rfl⟩,
    fun prices positions => rfl, mergeSeq_last_tick, mergeSeq_no_tick⟩
  · intro prices p h
    simp [mergeOne, h]
  · intro prices p h
    by_cases hst : p.status = "open" <;> simp [mergeOne, hst, h]
  · intro prices p t hst h
    simp [mergeOne, hst, h]

/-- Witness for C7: a closed position is untouched by a tick batch that
matches its ticker. -/
theorem tick_merge_invariant_witness :
    mergeOne (fun _ => some { price := some 110 }) { ticker := "AAPL", status := "closed" } =
      { ticker := "AAPL", status := "closed" } :=
  tick_merge_invariant.1 (fun _ => some { price := some 110 })
    { ticker := "AAPL", status := "closed" } (by decide)

/-- The chart minimum `Math.min(...data, 0)` is never positive. -/
lemma pnlChartMin_nonpos (data : List ℚ) : pnlChartMin data ≤ 0 := by
  induction data with
  | nil => simp [pnlChartMin]
  | cons x l ih =>
      simpa [pnlChartMin] using le_trans (min_le_right x _) ih

/-- The chart maximum `Math.max(...data, 0)` is never negative. -/
lemma pnlChartMax_nonneg (data : List ℚ) : 0 ≤ pnlChartMax data := by
  induction data with
  | nil => simp [pnlChartMax]
  | cons x l ih =>
      simpa [pnlChartMax] using le_trans ih (le_max_right x _)

/-- C4: for the series [-5, -2, 3, 6] (x spacing 100 starting at 5),
the negative fill ends at the interpolated crossing x = 145, strictly
between the x of samples 1 and 2 (105 and 205); the positive fill
spans [205, 305]; the two fills never overlap; the vertical range
always includes 0; and an exact-zero sample lies on the positive side
of the split. -/
theorem chart_zero_crossing :
    chartPts4.map ChartPoint.x = [5, 105, 205, 305] ∧
    pnlNegSpans chartPts4 = [(5, 145)] ∧
    pnlPosSpans chartPts4 = [(205, 305)] ∧
    ((105 : ℚ) < 145 ∧ (145 : ℚ) < 205) ∧
    (∀ s1 ∈ pnlNegSpans chartPts4, ∀ s2 ∈ pnlPosSpans chartPts4, s1.2 < s2.1) ∧
    (∀ data : List ℚ, pnlChartMin data ≤ 0 ∧ 0 ≤ pnlChartMax data) ∧
    (∀ q : ChartPoint, q.value = 0 → posSide q = true ∧ negSide q = false) := by
  have hpts : chartPts4 =
      [⟨5, 110 - 0/11 * 100, -5⟩, ⟨105, 110 - 3/11 * 100, -2⟩,
       ⟨205, 110 - 8/11 * 100, 3⟩, ⟨305, 110 - 1 * 100, 6⟩] := by
    norm_num [chartPts4, chartData4, pnlPoints, pnlPointsAux, pnlChartMin, pnlChartMax,
      pnlChartRange]
  have hneg : pnlNegSpans chartPts4 = [(5, 145)] := by
    rw [hpts]
    norm_num [pnlNegSpans, negFillSpans, negSide]
  have hpos : pnlPosSpans chartPts4 = [(205, 305)] := by
    rw [hpts]
    norm_num [pnlPosSpans, posFillSpans, posSide]
  refine ⟨by rw [hpts]; norm_num, hneg, hpos, by norm_num, ?_,
    fun data => ⟨pnlChartMin_nonpos data, pnlChartMax_nonneg data⟩, ?_⟩
  · intro s1 h1 s2 h2
    rw [hneg] at h1
    rw [hpos] at h2
    rw [List.mem_singleton] at h1 h2
    rw [h1, h2]
    norm_num
  · intro q hq
    simp [posSide, negSide, hq]

/-- Witness for C4: the concrete spans do not overlap, and the zero
sample point sits on the positive side. -/
theorem chart_zero_crossing_witness :
    (((5 : ℚ), (145 : ℚ)).2 < (((205 : ℚ), (305 : ℚ))).1) ∧
    (posSide ⟨0, 0, 0⟩ = true ∧ negSide ⟨0, 0, 0⟩ = false) :=
  ⟨chart_zero_crossing.2.2.2.2.1 (5, 145)
      (by rw [chart_zero_crossing.2.1]; exact List.mem_singleton.mpr rfl)
      (205, 305)
      (by rw [chart_zero_crossing.2.2.1]; exact List.mem_singleton.mpr rfl),
    chart_zero_crossing.2.2.2.2.2.2 ⟨0, 0, 0⟩ rfl⟩

end FinanceAi
